import Mathlib

/-!
Verification of the coverage-aware dedup-filter engine of the
SubscriptionMultiVersion plugin
(src/plugins.v2/subscriptionmultiversion/__init__.py).

The engine's pure core is shallowly embedded here:
* the data shapes consumed by the engine (`TorrentInfo`, `MediaInfo`,
  `MetaInfo`, `Context`),
* the per-subscription coverage set of `CoverageToken`s,
* `_record_downloaded_episodes_for_subscribe` (lines 999-1031),
* `_is_episode_covered_for_media` (lines 1102-1137),
* `_check_torrent_filter` (lines 747-766),
* `_filter_torrents_with_rules` (lines 1033-1100),
* the per-subscription body and batch loop of
  `subscribe_multiversion_filter` (lines 264-382).

External collaborators (the title parser `MetaInfo(title)`, the generic
per-torrent criteria check `TorrentHelper.filter_torrent`, and the
rule-group engine `FilterModule.filter_torrents`) are passed in as
function parameters, mirroring the dependency-injection reading of the
spec.  Python truthiness on optional integers (`0` and `None` are falsy)
and on optional strings (empty and `None` are falsy) is modelled
explicitly.  The filter loop additionally returns the list of candidates
on which a predicate evaluator was actually invoked, so that "the
evaluator is never called on a skipped candidate" is statable.
-/

namespace SubscriptionMultiVersion

/-- Media kind of a subscription's resolved identity (`MediaType`).
Everything that is not `tv` is a non-series kind. -/
inductive MediaKind
  | movie
  | tv
  | unknown
deriving DecidableEq

/-- The fields of a `TorrentInfo` the engine reads: the raw display title
(parsed for episode structure) and the originating site. -/
structure TorrentInfo where
  title : String
  site : String
deriving DecidableEq

/-- The fields of a resolved `MediaInfo` the engine reads: its media kind
and (for distinguishing identities in batch results) its title. -/
structure MediaInfo where
  mtype : MediaKind
  title : String
deriving DecidableEq

/-- The fields of a parsed `MetaInfo` the engine reads: the provenance
string `org_string`, the explicit episode list, the begin/end episode
range and the season number. -/
structure MetaInfo where
  orgString : Option String
  episodeList : List Int
  beginEpisode : Option Int
  endEpisode : Option Int
  season : Option Int
deriving DecidableEq

/-- A candidate `Context`: torrent info, media info and attached meta
info, each of which may be absent (`None` in the source). -/
structure Context where
  torrentInfo : Option TorrentInfo
  mediaInfo : Option MediaInfo
  metaInfo : Option MetaInfo
deriving DecidableEq

/-- A unit of satisfied content in a coverage set.  The source stores a
Python set holding plain integers (episodes) and strings of the form
`"s{n}"` (whole seasons); the two spaces are disjoint, which the tagged
union makes explicit. -/
inductive CoverageToken
  | ep (n : Int)
  | seasonOf (n : Int)
deriving DecidableEq

/-- Python truthiness of an optional integer: `None` and `0` are falsy. -/
def optIntTruthy : Option Int → Bool
  | none => false
  | some n => n != 0

/-- Python truthiness of an optional string: `None` and `""` are falsy. -/
def optStrTruthy : Option String → Bool
  | none => false
  | some s => s != ""

/-- Python `s.startswith(pre)`, computed over the character lists. -/
def str_starts_with (s pre : String) : Bool :=
  pre.toList.isPrefixOf s.toList

/-- The `is_downloaded` test of the filter loop (lines 1060-1061):
`torrent.meta_info and torrent.meta_info.org_string and
torrent.meta_info.org_string.startswith("downloaded:")`. -/
def ctx_is_downloaded (t : Context) : Bool :=
  match t.metaInfo with
  | none => false
  | some m =>
    match m.orgString with
    | none => false
    | some s => s != "" && str_starts_with s "downloaded:"

/-- Python `range(b, e + 1)`: the integers of `[b, e]` inclusive, empty
when `e < b`. -/
def int_range (b e : Int) : List Int :=
  (List.range (e + 1 - b).toNat).map (fun i => b + (i : Int))

/-- The token contribution of one torrent's meta info inside
`_record_downloaded_episodes_for_subscribe` (lines 1012-1028): a
non-empty explicit episode list contributes each listed episode;
otherwise a truthy begin episode contributes the inclusive begin/end
range when the end episode is truthy and just the begin episode when it
is not; otherwise a truthy season contributes the season token. -/
def record_tokens_of_meta (m : MetaInfo) (s : Finset CoverageToken) :
    Finset CoverageToken :=
  if !m.episodeList.isEmpty then
    m.episodeList.foldl (fun acc e => insert (CoverageToken.ep e) acc) s
  else if optIntTruthy m.beginEpisode then
    if optIntTruthy m.endEpisode then
      (int_range (m.beginEpisode.getD 0) (m.endEpisode.getD 0)).foldl
        (fun acc e => insert (CoverageToken.ep e) acc) s
    else
      insert (CoverageToken.ep (m.beginEpisode.getD 0)) s
  else if optIntTruthy m.season then
    insert (CoverageToken.seasonOf (m.season.getD 0)) s
  else s

/-- `_record_downloaded_episodes_for_subscribe` (lines 999-1031),
restricted to the one subscription's entry of the `downloaded_episodes`
mapping (the entries are keyed by subscription id and created empty):
fold the token contributions of the torrents' attached meta infos,
skipping torrents without one.  Note that the function never consults
the media kind. -/
def record_downloaded_episodes_for_subscribe (torrents : List Context)
    (s : Finset CoverageToken) : Finset CoverageToken :=
  torrents.foldl (fun acc t =>
    match t.metaInfo with
    | none => acc
    | some m => record_tokens_of_meta m acc) s

/-- `_is_episode_covered_for_media` (lines 1102-1137).  Returns `false`
when the torrent info or the media info is missing or the media kind is
not TV.  Otherwise the title is parsed; a parser exception is caught by
the surrounding `try`/`except` and yields `false` (the fail-open
branch).  On a parsed meta: an empty episode list with a truthy season
checks the season token; a non-empty episode list checks every listed
episode; otherwise a truthy begin episode checks only the begin episode
(the end episode is not consulted); otherwise `false`. -/
def is_episode_covered_for_media (parse : String → Except Unit MetaInfo)
    (torrent : Context) (media_info : Option MediaInfo)
    (downloaded_episodes : Finset CoverageToken) : Bool :=
  match torrent.torrentInfo, media_info with
  | some ti, some mi =>
    if mi.mtype ≠ MediaKind.tv then false
    else
      match parse ti.title with
      | Except.error _ => false
      | Except.ok m =>
        if m.episodeList.isEmpty && optIntTruthy m.season then
          decide (CoverageToken.seasonOf (m.season.getD 0) ∈ downloaded_episodes)
        else if !m.episodeList.isEmpty then
          m.episodeList.all (fun e => decide (CoverageToken.ep e ∈ downloaded_episodes))
        else if optIntTruthy m.beginEpisode then
          decide (CoverageToken.ep (m.beginEpisode.getD 0) ∈ downloaded_episodes)
        else false
  | _, _ => false

/-- The six-field criteria bundle assembled at lines 1048-1055. -/
structure FilterParams where
  quality : Option String
  resolution : Option String
  effect : Option String
  includeStr : Option String
  excludeStr : Option String
  sizeStr : Option String
deriving DecidableEq

/-- `_check_torrent_filter` (lines 747-766) as invoked from
`_filter_torrents_with_rules`: the `filter_params` dict built at lines
1048-1055 always carries its six keys, so the empty-dict early return
never fires, and it has no `"rule_groups"` key, so
`filter_params.get("rule_groups", [])` yields the empty list.  The call
therefore runs the rule-group module with an empty rule-group list on
the torrent's own media info; the six criteria fields are never read. -/
def check_torrent_filter
    (filter_module : List String → Option TorrentInfo → Option MediaInfo → Bool)
    (torrent : Context) : Bool :=
  filter_module [] torrent.torrentInfo torrent.mediaInfo

/-- `_filter_torrents_with_rules` (lines 1033-1100).  First component:
the kept torrents, in input order.  Second component: the torrents on
which a predicate evaluator (`_check_torrent_filter`,
`TorrentHelper.filter_torrent` or the rule-group module) was invoked,
in input order.  A downloaded torrent is kept iff `_check_torrent_filter`
passes; a fresh torrent is first coverage-skipped (no evaluator call)
when prioritization is on and it is fully covered, and is otherwise kept
iff the basic criteria check passes and, when rule groups are
configured, the rule-group module keeps it. -/
def filter_torrents_with_rules
    (torrent_filter : Option TorrentInfo → FilterParams → Bool)
    (filter_module : List String → Option TorrentInfo → Option MediaInfo → Bool)
    (parse : String → Except Unit MetaInfo)
    (torrents : List Context) (media_info : Option MediaInfo)
    (rule_groups : List String) (params : FilterParams)
    (downloaded_episodes : Finset CoverageToken)
    (prioritize_downloaded : Bool) : List Context × List Context :=
  match torrents with
  | [] => ([], [])
  | t :: rest =>
    let r := filter_torrents_with_rules torrent_filter filter_module parse rest
      media_info rule_groups params downloaded_episodes prioritize_downloaded
    if ctx_is_downloaded t then
      if check_torrent_filter filter_module t then (t :: r.1, t :: r.2)
      else (r.1, t :: r.2)
    else if prioritize_downloaded &&
        is_episode_covered_for_media parse t media_info downloaded_episodes then r
    else if !torrent_filter t.torrentInfo params then (r.1, t :: r.2)
    else if !rule_groups.isEmpty &&
        !filter_module rule_groups t.torrentInfo media_info then (r.1, t :: r.2)
    else (t :: r.1, t :: r.2)

deriving instance DecidableEq for Except

/-- One subscription of the batch, bundling the outcomes of its three
external suppliers: identity resolution, site search and download
history.  An `Except.error` value models the supplier raising. -/
structure SubscribeInput where
  sid : Int
  name : String
  resolveResult : Except Unit MediaInfo
  searchResult : Except Unit (List Context)
  historyResult : Except Unit (List Context)
deriving DecidableEq

/-- What one successfully processed subscription contributes: its
resolved identity, its kept torrents, its coverage set and the evaluator
invocation log. -/
structure SubscribeOutcome where
  identity : MediaInfo
  torrents : List Context
  covSet : Finset CoverageToken
  evalLog : List Context
deriving DecidableEq

/-- `_convert_subscribe_to_media_info` (lines 452-487): the body catches
every exception of the recognition chain and returns `None`. -/
def convert_subscribe_to_media_info (r : Except Unit MediaInfo) :
    Option MediaInfo :=
  r.toOption

/-- `_search_site_torrents` (lines 605-656): the body catches every
exception of the search supplier and returns the empty list. -/
def search_site_torrents (r : Except Unit (List Context)) : List Context :=
  (r.toOption).getD []

/-- `_get_downloaded_torrents_for_subscribe` (lines 954-997): the body
catches every exception of the history supplier and returns the empty
list. -/
def get_downloaded_torrents_for_subscribe (r : Except Unit (List Context)) :
    List Context :=
  (r.toOption).getD []

/-- The body of the per-subscription loop of
`subscribe_multiversion_filter` (lines 309-366).  Identity-resolution
failure skips the subscription (`none`).  With prioritization on, the
downloaded torrents are first filtered with an empty coverage set and
dedup disabled (lines 331-343), only the valid ones have their episodes
recorded (line 346), they are appended after the fresh search results
(line 349), and the combined list is filtered with the recorded coverage
set and dedup enabled (lines 352-364).  With prioritization off, the
history supplier is never consulted and the fresh results are filtered
with an empty coverage set and dedup disabled. -/
def process_subscribe
    (torrent_filter : Option TorrentInfo → FilterParams → Bool)
    (filter_module : List String → Option TorrentInfo → Option MediaInfo → Bool)
    (parse : String → Except Unit MetaInfo)
    (rule_groups : List String) (params : FilterParams)
    (prioritize_downloaded : Bool) (sub : SubscribeInput) :
    Option SubscribeOutcome :=
  match convert_subscribe_to_media_info sub.resolveResult with
  | none => none
  | some mi =>
    let site := search_site_torrents sub.searchResult
    if prioritize_downloaded then
      let downloaded := get_downloaded_torrents_for_subscribe sub.historyResult
      let firstPass := filter_torrents_with_rules torrent_filter filter_module
        parse downloaded (some mi) rule_groups params ∅ false
      let valid := firstPass.1
      let cov := record_downloaded_episodes_for_subscribe valid ∅
      let secondPass := filter_torrents_with_rules torrent_filter filter_module
        parse (site ++ valid) (some mi) rule_groups params cov true
      some ⟨mi, secondPass.1, cov, firstPass.2 ++ secondPass.2⟩
    else
      let p := filter_torrents_with_rules torrent_filter filter_module parse
        site (some mi) rule_groups params ∅ false
      some ⟨mi, p.1, ∅, p.2⟩

/-- The aggregated batch result of `subscribe_multiversion_filter`:
the accepted torrents, the resolved identities and the per-subscription
failure log entries. -/
structure BatchResult where
  torrents : List Context
  medias : List MediaInfo
  logs : List String
deriving DecidableEq

/-- One iteration of the batch loop of `subscribe_multiversion_filter`:
a skipped subscription contributes only a warning log entry, a processed
one appends its torrents and its identity. -/
def batch_step
    (torrent_filter : Option TorrentInfo → FilterParams → Bool)
    (filter_module : List String → Option TorrentInfo → Option MediaInfo → Bool)
    (parse : String → Except Unit MetaInfo)
    (rule_groups : List String) (params : FilterParams)
    (prioritize_downloaded : Bool) (acc : BatchResult) (sub : SubscribeInput) :
    BatchResult :=
  match process_subscribe torrent_filter filter_module parse rule_groups
      params prioritize_downloaded sub with
  | none =>
    { acc with logs := acc.logs ++ ["convert media info failed, skip: " ++ sub.name] }
  | some r =>
    { torrents := acc.torrents ++ r.torrents,
      medias := acc.medias ++ [r.identity],
      logs := acc.logs }

/-- The batch loop of `subscribe_multiversion_filter` (lines 303-377):
fold the per-subscription step over the batch, starting from the empty
result. -/
def subscribe_multiversion_filter
    (torrent_filter : Option TorrentInfo → FilterParams → Bool)
    (filter_module : List String → Option TorrentInfo → Option MediaInfo → Bool)
    (parse : String → Except Unit MetaInfo)
    (rule_groups : List String) (params : FilterParams)
    (prioritize_downloaded : Bool) (subs : List SubscribeInput) : BatchResult :=
  subs.foldl (batch_step torrent_filter filter_module parse rule_groups params
    prioritize_downloaded) ⟨[], [], []⟩

/-- The evaluation `_filter_torrents_with_rules` applies to a fresh
(non-downloaded, non-skipped) candidate, read off lines 1075-1090: the
basic six-field criteria check and, when rule groups are configured, the
rule-group module. -/
def full_criteria_eval
    (torrent_filter : Option TorrentInfo → FilterParams → Bool)
    (filter_module : List String → Option TorrentInfo → Option MediaInfo → Bool)
    (media_info : Option MediaInfo) (rule_groups : List String)
    (params : FilterParams) (t : Context) : Bool :=
  torrent_filter t.torrentInfo params &&
    (rule_groups.isEmpty || filter_module rule_groups t.torrentInfo media_info)

/-- The per-candidate keep decision of `_filter_torrents_with_rules`. -/
def keep_pred
    (torrent_filter : Option TorrentInfo → FilterParams → Bool)
    (filter_module : List String → Option TorrentInfo → Option MediaInfo → Bool)
    (parse : String → Except Unit MetaInfo)
    (media_info : Option MediaInfo) (rule_groups : List String)
    (params : FilterParams) (downloaded_episodes : Finset CoverageToken)
    (prioritize_downloaded : Bool) (t : Context) : Bool :=
  if ctx_is_downloaded t then check_torrent_filter filter_module t
  else if prioritize_downloaded &&
      is_episode_covered_for_media parse t media_info downloaded_episodes then false
  else full_criteria_eval torrent_filter filter_module media_info rule_groups params t

/-- Whether `_filter_torrents_with_rules` invokes a predicate evaluator
on a candidate: always for downloaded candidates, and for fresh ones
exactly when the coverage skip does not fire. -/
def eval_pred (parse : String → Except Unit MetaInfo)
    (media_info : Option MediaInfo) (downloaded_episodes : Finset CoverageToken)
    (prioritize_downloaded : Bool) (t : Context) : Bool :=
  ctx_is_downloaded t ||
    !(prioritize_downloaded &&
      is_episode_covered_for_media parse t media_info downloaded_episodes)

/-- The filter loop computes, in input order, the kept candidates and
the evaluator-invocation log, as pointwise list filters. -/
theorem filter_torrents_with_rules_eq
    (tf : Option TorrentInfo → FilterParams → Bool)
    (fm : List String → Option TorrentInfo → Option MediaInfo → Bool)
    (parse : String → Except Unit MetaInfo)
    (mi : Option MediaInfo) (rg : List String) (params : FilterParams)
    (cov : Finset CoverageToken) (pd : Bool) :
    ∀ torrents, filter_torrents_with_rules tf fm parse torrents mi rg params cov pd =
      (torrents.filter (keep_pred tf fm parse mi rg params cov pd),
       torrents.filter (eval_pred parse mi cov pd)) := by
  intro torrents
  induction torrents with
  | nil => rfl
  | cons t rest ih =>
    rw [filter_torrents_with_rules, ih]
    simp only [List.filter_cons, keep_pred, eval_pred, full_criteria_eval]
    split_ifs <;> simp_all

/-- An empty coverage set covers nothing: the coverage check is `false`
for every candidate. -/
theorem is_episode_covered_empty (parse : String → Except Unit MetaInfo)
    (t : Context) (mi : Option MediaInfo) :
    is_episode_covered_for_media parse t mi ∅ = false := by
  unfold is_episode_covered_for_media
  rcases ht : t.torrentInfo with _ | ti <;> rcases hm : mi with _ | m <;> try rfl
  by_cases hk : m.mtype ≠ MediaKind.tv
  · simp [hk]
  · simp only [hk, if_false]
    rcases hp : parse ti.title with e | pm
    · rfl
    · rcases he : pm.episodeList with _ | ⟨e0, es⟩ <;> simp_all [List.all_cons]

/-! Concrete instantiations used in witnesses and counterexamples:
trivial predicate evaluators, small parsed descriptors and candidate
contexts. -/

/-- A TV-series identity. -/
def miTV : MediaInfo := ⟨MediaKind.tv, "Show"⟩

/-- A movie identity. -/
def miMovie : MediaInfo := ⟨MediaKind.movie, "Film"⟩

/-- A basic criteria check that accepts everything. -/
def tfTrue : Option TorrentInfo → FilterParams → Bool := fun _ _ => true

/-- A basic criteria check that rejects everything. -/
def tfFalse : Option TorrentInfo → FilterParams → Bool := fun _ _ => false

/-- A rule-group module that keeps everything. -/
def fmTrue : List String → Option TorrentInfo → Option MediaInfo → Bool :=
  fun _ _ _ => true

/-- A rule-group module that rejects everything. -/
def fmFalse : List String → Option TorrentInfo → Option MediaInfo → Bool :=
  fun _ _ _ => false

/-- A rule-group module that keeps a torrent only when invoked with an
empty rule-group list. -/
def fmEmptyOnly : List String → Option TorrentInfo → Option MediaInfo → Bool :=
  fun gs _ _ => gs.isEmpty

/-- An all-empty criteria bundle. -/
def noParams : FilterParams := ⟨none, none, none, none, none, none⟩

/-- A descriptor with no episode structure at all. -/
def metaNone : MetaInfo := ⟨none, [], none, none, none⟩

/-- A descriptor with the explicit episode list `[n]`. -/
def metaEp (n : Int) : MetaInfo := ⟨none, [n], none, none, none⟩

/-- A season-only descriptor for season `n`. -/
def metaSeason (n : Int) : MetaInfo := ⟨none, [], none, none, some n⟩

/-- A descriptor with an empty explicit list and the begin/end range
`[1, 3]`. -/
def metaRange13 : MetaInfo := ⟨none, [], some 1, some 3, none⟩

/-- A parser mapping every title to the range descriptor `[1, 3]`. -/
def parseRange13 : String → Except Unit MetaInfo := fun _ => Except.ok metaRange13

/-- A parser mapping every title to the season-1-only descriptor. -/
def parseSeason1 : String → Except Unit MetaInfo :=
  fun _ => Except.ok (metaSeason 1)

/-- A parser mapping every title to the explicit-list descriptor `[1]`. -/
def parseEp1 : String → Except Unit MetaInfo := fun _ => Except.ok (metaEp 1)

/-- A parser that raises on every title. -/
def parseFail : String → Except Unit MetaInfo := fun _ => Except.error ()

/-- The scenario parser: title `"F1"` parses to episode list `[1]`,
title `"F2"` to episode list `[2]`, anything else to no structure. -/
def parseScen : String → Except Unit MetaInfo := fun s =>
  if s = "F1" then Except.ok (metaEp 1)
  else if s = "F2" then Except.ok (metaEp 2)
  else Except.ok metaNone

/-- A historical candidate for episode 1, tagged as downloaded and
carrying the episode-1 descriptor in its attached meta info. -/
def histEp1 : Context :=
  ⟨some ⟨"H1", "site"⟩, some miTV, some ⟨some "downloaded:1", [1], none, none, none⟩⟩

/-- A fresh candidate whose title parses to episode 1 under the
scenario parser. -/
def freshEp1 : Context := ⟨some ⟨"F1", "site"⟩, some miTV, none⟩

/-- A fresh candidate whose title parses to episode 2 under the
scenario parser. -/
def freshEp2 : Context := ⟨some ⟨"F2", "site"⟩, some miTV, none⟩

/-- A fresh candidate with an arbitrary title and no attached meta. -/
def freshAny : Context := ⟨some ⟨"R", "site"⟩, some miTV, none⟩

/-- A historical movie candidate, downloaded-tagged, whose attached meta
carries the episode list `[1]`. -/
def histMovie : Context :=
  ⟨some ⟨"HM", "site"⟩, some miMovie, some ⟨some "downloaded:2", [1], none, none, none⟩⟩

/-- The coverage set holding exactly the episode-1 token. -/
def covOnly1 : Finset CoverageToken := {CoverageToken.ep 1}

/-! Helper equation lemmas about the supplier wrappers and the batch
loop, shared between the claim theorems. -/

theorem convert_ok (mi : MediaInfo) :
    convert_subscribe_to_media_info (Except.ok mi) = some mi := rfl

theorem convert_err (e : Unit) :
    convert_subscribe_to_media_info (Except.error e) = none := rfl

theorem search_ok (l : List Context) :
    search_site_torrents (Except.ok l) = l := rfl

theorem downloaded_ok (l : List Context) :
    get_downloaded_torrents_for_subscribe (Except.ok l) = l := rfl

theorem record_nil (s : Finset CoverageToken) :
    record_downloaded_episodes_for_subscribe [] s = s := rfl

/-- What one subscription contributes to the batch result: the warning
log entry when it is skipped, its torrents and identity otherwise. -/
def sub_contrib
    (torrent_filter : Option TorrentInfo → FilterParams → Bool)
    (filter_module : List String → Option TorrentInfo → Option MediaInfo → Bool)
    (parse : String → Except Unit MetaInfo)
    (rule_groups : List String) (params : FilterParams)
    (prioritize_downloaded : Bool) (sub : SubscribeInput) : BatchResult :=
  match process_subscribe torrent_filter filter_module parse rule_groups params
      prioritize_downloaded sub with
  | none => ⟨[], [], ["convert media info failed, skip: " ++ sub.name]⟩
  | some r => ⟨r.torrents, [r.identity], []⟩

/-- The batch fold, from any accumulator, appends the independent
per-subscription contributions. -/
theorem batch_foldl_decomp
    (tf : Option TorrentInfo → FilterParams → Bool)
    (fm : List String → Option TorrentInfo → Option MediaInfo → Bool)
    (parse : String → Except Unit MetaInfo)
    (rg : List String) (params : FilterParams) (pd : Bool) :
    ∀ (subs : List SubscribeInput) (acc : BatchResult),
      subs.foldl (batch_step tf fm parse rg params pd) acc =
        ⟨acc.torrents ++
          (subs.map (fun s => (sub_contrib tf fm parse rg params pd s).torrents)).flatten,
         acc.medias ++
          (subs.map (fun s => (sub_contrib tf fm parse rg params pd s).medias)).flatten,
         acc.logs ++
          (subs.map (fun s => (sub_contrib tf fm parse rg params pd s).logs)).flatten⟩ := by
  intro subs
  induction subs with
  | nil => intro acc; simp
  | cons s rest ih =>
    intro acc
    rw [List.foldl_cons, ih]
    cases hp : process_subscribe tf fm parse rg params pd s <;>
      simp [batch_step, sub_contrib, hp]

/-! The claim theorems. -/

/-- C1: evaluation of the coverage check at the failing input.  On a
descriptor with an empty explicit episode list and the begin/end range
`[1, 3]`, over a coverage set holding only episode 1, the source's check
reports FULL coverage — although episodes 2 and 3 of the range are
absent, and although recording the very same descriptor contributes all
of episodes 1, 2 and 3.  The check's range branch consults only the
begin episode, contradicting the claim and the function's own
docstring (every episode of the torrent must be downloaded). -/
theorem C1_range_check_ignores_end :
    is_episode_covered_for_media parseRange13 freshAny (some miTV) covOnly1 = true
    ∧ CoverageToken.ep 2 ∉ covOnly1
    ∧ CoverageToken.ep 3 ∉ covOnly1
    ∧ record_tokens_of_meta metaRange13 ∅ =
        ({CoverageToken.ep 1, CoverageToken.ep 2, CoverageToken.ep 3} :
          Finset CoverageToken) := by
  decide

/-- C6: season tokens and episode tokens are distinct spaces.  Recording
a season-1-only descriptor yields exactly the season-1 token; an
explicit-list descriptor `[1]` is not covered by that token; a
season-1-only descriptor is not covered by the episode-1 token; and in
general a season-1-only descriptor is covered exactly when the season-1
token is in the coverage set. -/
theorem C6_season_episode_token_separation :
    record_tokens_of_meta (metaSeason 1) ∅ =
        ({CoverageToken.seasonOf 1} : Finset CoverageToken)
    ∧ is_episode_covered_for_media parseEp1 freshAny (some miTV)
        {CoverageToken.seasonOf 1} = false
    ∧ is_episode_covered_for_media parseSeason1 freshAny (some miTV) covOnly1 = false
    ∧ ∀ s : Finset CoverageToken,
        is_episode_covered_for_media parseSeason1 freshAny (some miTV) s = true ↔
          CoverageToken.seasonOf 1 ∈ s := by
  refine ⟨by decide, by decide, by decide, fun s => ?_⟩
  simp [is_episode_covered_for_media, parseSeason1, metaSeason, freshAny, miTV,
    optIntTruthy]

/-- C6 witness: the season-1-only descriptor is covered over the
singleton coverage set holding the season-1 token. -/
theorem C6_season_witness :
    is_episode_covered_for_media parseSeason1 freshAny (some miTV)
      ({CoverageToken.seasonOf 1} : Finset CoverageToken) = true :=
  (C6_season_episode_token_separation.2.2.2 {CoverageToken.seasonOf 1}).mpr
    (by decide)

/-- C2 counterexample: with the rule group `"g"` configured and a
rule-group module that keeps a torrent only when invoked with an empty
rule-group list, the filter keeps a downloaded candidate even though the
full criteria evaluation applied to fresh candidates rejects it — so a
historical candidate is NOT included iff it passes the same criteria as
fresh candidates. -/
theorem C2_historical_not_full_criteria :
    (filter_torrents_with_rules tfTrue fmEmptyOnly parseScen [histEp1] (some miTV)
      ["g"] noParams ∅ false).1 = [histEp1]
    ∧ full_criteria_eval tfTrue fmEmptyOnly (some miTV) ["g"] noParams histEp1 = false := by
  decide

/-- C2 (amended): a historical (downloaded-tagged) candidate is included
in the filter output iff `_check_torrent_filter` passes, i.e. iff the
rule-group module keeps it when invoked with an empty rule-group list on
the torrent's own media info; the six criteria fields and the configured
rule groups are not consulted for historical candidates. -/
theorem C2_historical_check_iff
    (tf : Option TorrentInfo → FilterParams → Bool)
    (fm : List String → Option TorrentInfo → Option MediaInfo → Bool)
    (parse : String → Except Unit MetaInfo)
    (mi : Option MediaInfo) (rg : List String) (params : FilterParams)
    (cov : Finset CoverageToken) (pd : Bool)
    (torrents : List Context) (t : Context)
    (hmem : t ∈ torrents) (hdl : ctx_is_downloaded t = true) :
    t ∈ (filter_torrents_with_rules tf fm parse torrents mi rg params cov pd).1 ↔
      check_torrent_filter fm t = true := by
  rw [filter_torrents_with_rules_eq]
  simp only [List.mem_filter]
  constructor
  · rintro ⟨-, hk⟩
    simpa [keep_pred, hdl] using hk
  · intro hc
    exact ⟨hmem, by simp [keep_pred, hdl, hc]⟩

/-- C2 witness: the amended characterisation at the counterexample's
concrete input. -/
theorem C2_historical_check_witness :
    histEp1 ∈ (filter_torrents_with_rules tfTrue fmEmptyOnly parseScen [histEp1]
      (some miTV) ["g"] noParams ∅ false).1 ↔
      check_torrent_filter fmEmptyOnly histEp1 = true :=
  C2_historical_check_iff tfTrue fmEmptyOnly parseScen (some miTV) ["g"] noParams
    ∅ false [histEp1] histEp1 (by decide) (by decide)

/-- C3: with prioritization on, a fresh (non-downloaded) candidate whose
descriptor is fully covered is excluded from the filter output and never
appears in the evaluator-invocation log; and in the concrete scenario of
one historical episode-1 candidate passing criteria and one fresh
episode-1 candidate, the subscription's output contains exactly the
historical candidate, the coverage set is exactly the episode-1 token,
and the evaluator log never mentions the fresh candidate. -/
theorem C3_covered_fresh_skipped :
    (∀ (tf : Option TorrentInfo → FilterParams → Bool)
       (fm : List String → Option TorrentInfo → Option MediaInfo → Bool)
       (parse : String → Except Unit MetaInfo)
       (torrents : List Context) (mi : Option MediaInfo) (rg : List String)
       (params : FilterParams) (cov : Finset CoverageToken) (t : Context),
       ctx_is_downloaded t = false →
       is_episode_covered_for_media parse t mi cov = true →
       t ∉ (filter_torrents_with_rules tf fm parse torrents mi rg params cov true).1
       ∧ t ∉ (filter_torrents_with_rules tf fm parse torrents mi rg params cov true).2)
    ∧ process_subscribe tfTrue fmTrue parseScen [] noParams true
        ⟨1, "sub", Except.ok miTV, Except.ok [freshEp1], Except.ok [histEp1]⟩ =
        some ⟨miTV, [histEp1], {CoverageToken.ep 1}, [histEp1, histEp1]⟩ := by
  constructor
  · intro tf fm parse torrents mi rg params cov t hdl hcov
    rw [filter_torrents_with_rules_eq]
    constructor <;> simp [List.mem_filter, keep_pred, eval_pred, hdl, hcov]
  · decide

/-- C3 witness: the covered fresh episode-1 candidate is excluded and
unevaluated at the concrete scenario input. -/
theorem C3_covered_fresh_skipped_witness :
    freshEp1 ∉ (filter_torrents_with_rules tfTrue fmTrue parseScen [freshEp1]
      (some miTV) [] noParams covOnly1 true).1
    ∧ freshEp1 ∉ (filter_torrents_with_rules tfTrue fmTrue parseScen [freshEp1]
      (some miTV) [] noParams covOnly1 true).2 :=
  C3_covered_fresh_skipped.1 tfTrue fmTrue parseScen [freshEp1] (some miTV) []
    noParams covOnly1 freshEp1 (by decide) (by decide)

/-- Shared helper: the coverage check is `false` for every non-TV media
kind, whatever the coverage set. -/
theorem is_episode_covered_non_tv (parse : String → Except Unit MetaInfo)
    (t : Context) (mi : MediaInfo) (cov : Finset CoverageToken)
    (h : mi.mtype ≠ MediaKind.tv) :
    is_episode_covered_for_media parse t (some mi) cov = false := by
  rcases ht : t.torrentInfo with _ | ti
  · simp [is_episode_covered_for_media, ht]
  · simp [is_episode_covered_for_media, ht, h]

/-- C4: a historical candidate batch that entirely fails
`_check_torrent_filter` contributes no coverage tokens and none of its
members reach the output, and every fresh candidate is still evaluated
normally: it appears in the evaluator log and is kept iff the full
criteria evaluation passes. -/
theorem C4_failing_historical_no_coverage
    (tf : Option TorrentInfo → FilterParams → Bool)
    (fm : List String → Option TorrentInfo → Option MediaInfo → Bool)
    (parse : String → Except Unit MetaInfo)
    (rg : List String) (params : FilterParams)
    (sid : Int) (nm : String) (mi : MediaInfo) (site hist : List Context)
    (hdl : ∀ h ∈ hist, ctx_is_downloaded h = true)
    (hfail : ∀ h ∈ hist, check_torrent_filter fm h = false) :
    ∀ r, process_subscribe tf fm parse rg params true
        ⟨sid, nm, Except.ok mi, Except.ok site, Except.ok hist⟩ = some r →
      r.covSet = ∅
      ∧ (∀ h ∈ hist, h ∉ r.torrents)
      ∧ (∀ f ∈ site, f ∈ r.evalLog)
      ∧ (∀ f ∈ site, ctx_is_downloaded f = false →
          (f ∈ r.torrents ↔ full_criteria_eval tf fm (some mi) rg params f = true)) := by
  intro r hrun
  have hvalid : hist.filter (keep_pred tf fm parse (some mi) rg params ∅ false) = [] := by
    rw [List.filter_eq_nil_iff]
    intro h hh
    simp [keep_pred, hdl h hh, hfail h hh]
  simp only [process_subscribe, convert_ok, search_ok, downloaded_ok,
    filter_torrents_with_rules_eq, if_true, hvalid, record_nil, List.append_nil,
    Option.some.injEq] at hrun
  subst hrun
  refine ⟨rfl, ?_, ?_, ?_⟩
  · intro h hh
    simp [List.mem_filter, keep_pred, hdl h hh, hfail h hh]
  · intro f hf
    apply List.mem_append_right
    rw [List.mem_filter]
    exact ⟨hf, by simp [eval_pred, is_episode_covered_empty]⟩
  · intro f hf hfd
    simp [List.mem_filter, keep_pred, hfd, is_episode_covered_empty, hf]

/-- C4 witness: one failing historical episode-1 candidate and one fresh
episode-1 candidate — the fresh one is evaluated and kept. -/
theorem C4_failing_historical_witness :
    ((⟨miTV, [freshEp1], ∅, [histEp1, freshEp1]⟩ : SubscribeOutcome).covSet = ∅
    ∧ (∀ h ∈ [histEp1],
        h ∉ (⟨miTV, [freshEp1], ∅, [histEp1, freshEp1]⟩ : SubscribeOutcome).torrents)
    ∧ (∀ f ∈ [freshEp1],
        f ∈ (⟨miTV, [freshEp1], ∅, [histEp1, freshEp1]⟩ : SubscribeOutcome).evalLog)
    ∧ (∀ f ∈ [freshEp1], ctx_is_downloaded f = false →
        (f ∈ (⟨miTV, [freshEp1], ∅, [histEp1, freshEp1]⟩ : SubscribeOutcome).torrents ↔
          full_criteria_eval tfTrue fmFalse (some miTV) [] noParams f = true))) :=
  C4_failing_historical_no_coverage tfTrue fmFalse parseScen [] noParams 1 "s"
    miTV [freshEp1] [histEp1] (by decide) (by decide)
    ⟨miTV, [freshEp1], ∅, [histEp1, freshEp1]⟩ (by decide)

/-- C5 counterexample: with prioritization off, a historical candidate
that passes `_check_torrent_filter` is neither evaluated nor present in
the output — the history supplier is never consulted — contradicting
"every historical candidate is evaluated identically to a fresh one". -/
theorem C5_historical_not_evaluated :
    process_subscribe tfTrue fmTrue parseScen [] noParams false
      ⟨1, "s", Except.ok miTV, Except.ok [freshEp1], Except.ok [histEp1]⟩ =
      some ⟨miTV, [freshEp1], ∅, [freshEp1]⟩
    ∧ check_torrent_filter fmTrue histEp1 = true := by
  decide

/-- C5 (amended): with prioritization off, the subscription's processing
does not depend on the history supplier at all, the coverage set stays
empty, every fresh candidate is evaluated (no coverage skip), and the
output is the fresh candidates filtered with an empty coverage set and
dedup disabled. -/
theorem C5_disabled_prioritization
    (tf : Option TorrentInfo → FilterParams → Bool)
    (fm : List String → Option TorrentInfo → Option MediaInfo → Bool)
    (parse : String → Except Unit MetaInfo)
    (rg : List String) (params : FilterParams) (sub : SubscribeInput) :
    (∀ h1 h2 : Except Unit (List Context),
      process_subscribe tf fm parse rg params false { sub with historyResult := h1 } =
        process_subscribe tf fm parse rg params false { sub with historyResult := h2 })
    ∧ ∀ r, process_subscribe tf fm parse rg params false sub = some r →
        r.covSet = ∅
        ∧ r.evalLog = search_site_torrents sub.searchResult
        ∧ r.torrents = (search_site_torrents sub.searchResult).filter
            (keep_pred tf fm parse (some r.identity) rg params ∅ false) := by
  constructor
  · intro h1 h2
    simp [process_subscribe]
  · intro r hrun
    rcases hres : sub.resolveResult with e | mi
    · simp [process_subscribe, hres, convert_subscribe_to_media_info,
        Except.toOption] at hrun
    · simp only [process_subscribe, hres, convert_ok, Bool.false_eq_true, if_false,
        filter_torrents_with_rules_eq, Option.some.injEq] at hrun
      subst hrun
      refine ⟨rfl, ?_, rfl⟩
      apply List.filter_eq_self.mpr
      intro a _
      simp [eval_pred]

/-- C5 witness: the history-independence at a concrete subscription,
with a live history supplier on one side and a raising one on the
other. -/
theorem C5_disabled_prioritization_witness :
    process_subscribe tfTrue fmTrue parseScen [] noParams false
      { (⟨1, "s", Except.ok miTV, Except.ok [freshEp1], Except.ok [histEp1]⟩ :
          SubscribeInput) with historyResult := Except.ok [histEp1] } =
    process_subscribe tfTrue fmTrue parseScen [] noParams false
      { (⟨1, "s", Except.ok miTV, Except.ok [freshEp1], Except.ok [histEp1]⟩ :
          SubscribeInput) with historyResult := Except.error () } :=
  (C5_disabled_prioritization tfTrue fmTrue parseScen [] noParams
    ⟨1, "s", Except.ok miTV, Except.ok [freshEp1], Except.ok [histEp1]⟩).1
    (Except.ok [histEp1]) (Except.error ())

/-- C7 counterexample: processing a MOVIE subscription with a
downloaded-tagged history candidate whose attached meta carries episode
list `[1]` produces a non-empty coverage set — recording never consults
the media kind, so non-TV media DO produce coverage tokens. -/
theorem C7_movie_produces_tokens :
    process_subscribe tfTrue fmTrue parseScen [] noParams true
      ⟨2, "m", Except.ok miMovie, Except.ok [], Except.ok [histMovie]⟩ =
      some ⟨miMovie, [histMovie], {CoverageToken.ep 1}, [histMovie, histMovie]⟩
    ∧ miMovie.mtype ≠ MediaKind.tv := by
  decide

/-- C7 (amended): for every non-TV media kind the coverage check returns
`false` whatever the coverage set, and in the filter loop every
candidate of a non-TV subscription appears in the evaluator log — the
dedup-skip never excludes a movie candidate.  (Recording, however, does
not consult the media kind; see the counterexample.) -/
theorem C7_movie_immunity :
    (∀ (parse : String → Except Unit MetaInfo) (t : Context) (mi : MediaInfo)
       (cov : Finset CoverageToken), mi.mtype ≠ MediaKind.tv →
       is_episode_covered_for_media parse t (some mi) cov = false)
    ∧ (∀ (tf : Option TorrentInfo → FilterParams → Bool)
         (fm : List String → Option TorrentInfo → Option MediaInfo → Bool)
         (parse : String → Except Unit MetaInfo)
         (torrents : List Context) (mi : MediaInfo) (rg : List String)
         (params : FilterParams) (cov : Finset CoverageToken) (pd : Bool)
         (t : Context), mi.mtype ≠ MediaKind.tv → t ∈ torrents →
         t ∈ (filter_torrents_with_rules tf fm parse torrents (some mi) rg params
            cov pd).2) := by
  refine ⟨fun parse t mi cov h => is_episode_covered_non_tv parse t mi cov h, ?_⟩
  intro tf fm parse torrents mi rg params cov pd t h hmem
  rw [filter_torrents_with_rules_eq]
  rw [List.mem_filter]
  exact ⟨hmem, by simp [eval_pred, is_episode_covered_non_tv _ _ _ _ h]⟩

/-- C7 witness: the coverage check rejects a movie candidate over a
non-empty coverage set. -/
theorem C7_movie_immunity_witness :
    is_episode_covered_for_media parseEp1 freshAny (some miMovie) covOnly1 = false :=
  C7_movie_immunity.1 parseEp1 freshAny miMovie covOnly1 (by decide)

/-- C8 counterexample: a subscription whose search supplier raises is
NOT skipped — its history-derived candidate still reaches the batch
output (and its identity the media list). -/
theorem C8_search_failure_not_skipped :
    (subscribe_multiversion_filter tfTrue fmTrue parseScen [] noParams true
      [⟨3, "x", Except.ok miTV, Except.error (), Except.ok [histEp1]⟩]).torrents =
      [histEp1]
    ∧ (⟨3, "x", Except.ok miTV, Except.error (), Except.ok [histEp1]⟩ :
        SubscribeInput).searchResult = Except.error () := by
  decide

/-- C8 (amended): the batch result is the concatenation of independent
per-subscription contributions — no subscription's failure can abort or
affect another's processing, and the orchestrator always returns a
(total) result — and a subscription whose identity resolution raises
contributes nothing but its warning log entry. -/
theorem C8_batch_resilience
    (tf : Option TorrentInfo → FilterParams → Bool)
    (fm : List String → Option TorrentInfo → Option MediaInfo → Bool)
    (parse : String → Except Unit MetaInfo)
    (rg : List String) (params : FilterParams) (pd : Bool) :
    (∀ subs : List SubscribeInput,
      subscribe_multiversion_filter tf fm parse rg params pd subs =
        ⟨(subs.map (fun s => (sub_contrib tf fm parse rg params pd s).torrents)).flatten,
         (subs.map (fun s => (sub_contrib tf fm parse rg params pd s).medias)).flatten,
         (subs.map (fun s => (sub_contrib tf fm parse rg params pd s).logs)).flatten⟩)
    ∧ (∀ sub : SubscribeInput, sub.resolveResult = Except.error () →
        process_subscribe tf fm parse rg params pd sub = none
        ∧ sub_contrib tf fm parse rg params pd sub =
            ⟨[], [], ["convert media info failed, skip: " ++ sub.name]⟩) := by
  constructor
  · intro subs
    rw [subscribe_multiversion_filter, batch_foldl_decomp]
    simp
  · intro sub hres
    have hp : process_subscribe tf fm parse rg params pd sub = none := by
      simp [process_subscribe, hres, convert_subscribe_to_media_info, Except.toOption]
    exact ⟨hp, by simp [sub_contrib, hp]⟩

/-- C8 witness: a subscription with a raising identity resolution is
skipped with only its log entry. -/
theorem C8_batch_resilience_witness :
    process_subscribe tfTrue fmTrue parseScen [] noParams true
      ⟨2, "bad", Except.error (), Except.ok [], Except.ok []⟩ = none
    ∧ sub_contrib tfTrue fmTrue parseScen [] noParams true
        ⟨2, "bad", Except.error (), Except.ok [], Except.ok []⟩ =
        ⟨[], [], ["convert media info failed, skip: " ++ "bad"]⟩ :=
  (C8_batch_resilience tfTrue fmTrue parseScen [] noParams true).2
    ⟨2, "bad", Except.error (), Except.ok [], Except.ok []⟩ rfl

/-- C9: the coverage check is fail-open — a parser exception inside it
yields "not covered" — and a fresh candidate whose coverage check is
`false` is never dedup-skipped: it reaches the evaluator log and is kept
iff the full criteria evaluation passes. -/
theorem C9_coverage_fail_open :
    (∀ (parse : String → Except Unit MetaInfo) (t : Context)
       (mi : Option MediaInfo) (cov : Finset CoverageToken) (ti : TorrentInfo),
       t.torrentInfo = some ti → parse ti.title = Except.error () →
       is_episode_covered_for_media parse t mi cov = false)
    ∧ (∀ (tf : Option TorrentInfo → FilterParams → Bool)
         (fm : List String → Option TorrentInfo → Option MediaInfo → Bool)
         (parse : String → Except Unit MetaInfo)
         (torrents : List Context) (mi : Option MediaInfo) (rg : List String)
         (params : FilterParams) (cov : Finset CoverageToken) (pd : Bool)
         (t : Context), t ∈ torrents → ctx_is_downloaded t = false →
         is_episode_covered_for_media parse t mi cov = false →
         t ∈ (filter_torrents_with_rules tf fm parse torrents mi rg params cov pd).2
         ∧ (t ∈ (filter_torrents_with_rules tf fm parse torrents mi rg params cov pd).1 ↔
             full_criteria_eval tf fm mi rg params t = true)) := by
  constructor
  · intro parse t mi cov ti ht hp
    rcases mi with _ | m
    · simp [is_episode_covered_for_media, ht]
    · simp [is_episode_covered_for_media, ht, hp]
  · intro tf fm parse torrents mi rg params cov pd t hmem hdl hcov
    rw [filter_torrents_with_rules_eq]
    constructor
    · rw [List.mem_filter]
      exact ⟨hmem, by simp [eval_pred, hcov]⟩
    · rw [List.mem_filter]
      simp [keep_pred, hdl, hcov, hmem]

/-- C9 witness: a parser that raises on every title reports the
candidate as not covered over a non-empty coverage set. -/
theorem C9_coverage_fail_open_witness :
    is_episode_covered_for_media parseFail freshAny (some miTV) covOnly1 = false :=
  C9_coverage_fail_open.1 parseFail freshAny (some miTV) covOnly1 ⟨"R", "site"⟩
    rfl rfl

/-- C10: with prioritization on, the subscription's output is exactly
the accepted fresh candidates (an order-preserving filter of the search
results) followed by the accepted historical candidates (an
order-preserving filter of the history results by
`_check_torrent_filter`), and its coverage set is the recording of the
accepted historical candidates. -/
theorem C10_fresh_before_historical
    (tf : Option TorrentInfo → FilterParams → Bool)
    (fm : List String → Option TorrentInfo → Option MediaInfo → Bool)
    (parse : String → Except Unit MetaInfo)
    (rg : List String) (params : FilterParams)
    (sid : Int) (nm : String) (mi : MediaInfo) (site hist : List Context)
    (hdl : ∀ h ∈ hist, ctx_is_downloaded h = true) :
    ∀ r, process_subscribe tf fm parse rg params true
        ⟨sid, nm, Except.ok mi, Except.ok site, Except.ok hist⟩ = some r →
      r.covSet = record_downloaded_episodes_for_subscribe
          (hist.filter (fun h => check_torrent_filter fm h)) ∅
      ∧ r.torrents =
          site.filter (keep_pred tf fm parse (some mi) rg params r.covSet true)
          ++ hist.filter (fun h => check_torrent_filter fm h) := by
  intro r hrun
  have hvalid : hist.filter (keep_pred tf fm parse (some mi) rg params ∅ false) =
      hist.filter (fun h => check_torrent_filter fm h) := by
    apply List.filter_congr
    intro h hh
    simp [keep_pred, hdl h hh]
  simp only [process_subscribe, convert_ok, search_ok, downloaded_ok,
    filter_torrents_with_rules_eq, if_true, hvalid, Option.some.injEq] at hrun
  obtain ⟨ri, rt, rc, re⟩ := r
  simp only [SubscribeOutcome.mk.injEq] at hrun
  obtain ⟨rfl, rfl, rfl, rfl⟩ := hrun
  dsimp only
  refine ⟨rfl, ?_⟩
  rw [List.filter_append]
  congr 1
  apply List.filter_eq_self.mpr
  intro v hv
  rw [List.mem_filter] at hv
  simp [keep_pred, hdl v hv.1, hv.2]

/-- C10 witness: one accepted fresh episode-2 candidate precedes the
accepted historical episode-1 candidate in the concrete scenario. -/
theorem C10_fresh_before_historical_witness :
    ((⟨miTV, [freshEp2, histEp1], {CoverageToken.ep 1},
        [histEp1, freshEp2, histEp1]⟩ : SubscribeOutcome).covSet =
      record_downloaded_episodes_for_subscribe
        ([histEp1].filter (fun h => check_torrent_filter fmTrue h)) ∅
    ∧ (⟨miTV, [freshEp2, histEp1], {CoverageToken.ep 1},
        [histEp1, freshEp2, histEp1]⟩ : SubscribeOutcome).torrents =
        [freshEp2].filter (keep_pred tfTrue fmTrue parseScen (some miTV) [] noParams
          (⟨miTV, [freshEp2, histEp1], {CoverageToken.ep 1},
            [histEp1, freshEp2, histEp1]⟩ : SubscribeOutcome).covSet true)
        ++ [histEp1].filter (fun h => check_torrent_filter fmTrue h)) :=
  C10_fresh_before_historical tfTrue fmTrue parseScen [] noParams 1 "s" miTV
    [freshEp2] [histEp1] (by decide)
    ⟨miTV, [freshEp2, histEp1], {CoverageToken.ep 1}, [histEp1, freshEp2, histEp1]⟩
    (by decide)

end SubscriptionMultiVersion
